import Mathlib

namespace App

/-
Verification of the fetch-orchestration and TTL-cache core of `app.py`
(eBay scraping service). The Python endpoints, the cache helpers and the
expiry sweep are shallowly embedded as Lean functions; HTML extraction and
the network are external collaborators and appear as oracle parameters.
-/

/-- Python JSON-like values: the dictionaries and lists the service builds
and stores in its caches. A dict is an association list in insertion order
with unique keys, as in a Python dict. -/
inductive PyVal where
  | str : String → PyVal
  | list : List PyVal → PyVal
  | dict : List (String × PyVal) → PyVal

/-- Python truthiness of a value, as used by the endpoints in tests such as
`if cached_data:`: an empty string, list or dict is falsy. -/
def PyVal.isTruthy : PyVal → Bool
  | .str s => !(s == "")
  | .list l => !l.isEmpty
  | .dict d => !d.isEmpty

/-- Truthiness of an optional value (`None` is falsy), for the pattern
`cached_data = get_from_cache(...); if cached_data:` in the endpoints. -/
def py_truthy : Option PyVal → Bool
  | some v => v.isTruthy
  | none => false

/-- Reads a string field of a dict, the subscript `x["product_link"]` at
line 350. Every record the service builds carries this field, so the
default for a missing field is never exercised by the program. -/
def PyVal.getStr : PyVal → String → String
  | .dict d, field =>
    match d.find? (fun kv => kv.1 == field) with
    | some (_, .str s) => s
    | _ => ""
  | _, _ => ""

/-- Tests whether a dict value has a field of the given name; used to state
the presence of the `"error"` marker of failed fetches. -/
def PyVal.hasField : PyVal → String → Bool
  | .dict d, field => d.any (fun kv => kv.1 == field)
  | _, _ => false

/-- One cache entry, `{"data": result, "timestamp": time_added}` (line 16).
Timestamps are naturals (seconds since an arbitrary origin). -/
structure CacheEntry where
  data : PyVal
  timestamp : Nat

/-- A cache dict (`product_cache`, `auction_cache`, `product_data_cache`,
lines 17 to 19): a key-to-entry mapping with unique keys, modelled as an
association list. -/
abbrev Cache := List (String × CacheEntry)

/-- Cache expiry time in seconds, 10 minutes (line 22). -/
def CACHE_EXPIRY_TIME : Nat := 600

/-- Dictionary membership plus lookup, the `key in cache` guard followed by
`cache[key]` of `get_from_cache` (lines 401 to 403). -/
def cacheFind (cache : Cache) (key : String) : Option CacheEntry :=
  (cache.find? (fun kv => kv.1 == key)).map (fun kv => kv.2)

/-- Validity test used by lazy reads (line 402):
`time.time() - cache[key]["timestamp"] <= CACHE_EXPIRY_TIME`. -/
def entry_valid (e : CacheEntry) (now : Nat) : Prop :=
  now - e.timestamp ≤ CACHE_EXPIRY_TIME

instance (e : CacheEntry) (now : Nat) : Decidable (entry_valid e now) :=
  inferInstanceAs (Decidable (now - e.timestamp ≤ CACHE_EXPIRY_TIME))

/-- Expiry test used by the sweep (line 386):
`current_time - value["timestamp"] > CACHE_EXPIRY_TIME`. -/
def entry_expired (e : CacheEntry) (now : Nat) : Prop :=
  CACHE_EXPIRY_TIME < now - e.timestamp

instance (e : CacheEntry) (now : Nat) : Decidable (entry_expired e now) :=
  inferInstanceAs (Decidable (CACHE_EXPIRY_TIME < now - e.timestamp))

/-- Lines 400 to 404: returns the stored data when the entry exists and is
valid, `None` otherwise. It only reads the store; the current time is an
explicit argument in place of `time.time()`. -/
def get_from_cache (cache : Cache) (key : String) (now : Nat) : Option PyVal :=
  match cacheFind cache key with
  | some e => if entry_valid e now then some e.data else none
  | none => none

/-- Lines 407 to 411: `cache[key] = {"data": data, "timestamp": time.time()}`,
an unconditional overwrite with a fresh timestamp. -/
def store_in_cache (cache : Cache) (key : String) (data : PyVal) (now : Nat) : Cache :=
  (key, ⟨data, now⟩) :: cache.filter (fun kv => kv.1 ≠ key)

/-- One pass of `clean_expired_cache` over a single cache dict (lines 384 to
389): collect the keys whose entry is expired and pop them, i.e. keep
exactly the non-expired entries. -/
def clean_cache_pass (cache : Cache) (now : Nat) : Cache :=
  cache.filter (fun kv => ¬ entry_expired kv.2 now)

/-- One iteration of the sweep loop body (lines 380 to 389): cleans all
three cache namespaces at the same captured `current_time`. -/
def clean_expired_cache_step (product_cache auction_cache product_data_cache : Cache)
    (now : Nat) : Cache × Cache × Cache :=
  (clean_cache_pass product_cache now,
   clean_cache_pass auction_cache now,
   clean_cache_pass product_data_cache now)

/-- Lexicographic comparison of code-point sequences, the order Python uses
to compare strings: a prefix precedes its extensions, otherwise the first
differing character decides. -/
def charListLe : List Char → List Char → Bool
  | [], _ => true
  | _ :: _, [] => false
  | a :: as, b :: bs =>
    if a < b then true
    else if a = b then charListLe as bs
    else false

/-- Python string comparison `a <= b`: lexicographic by code point. -/
def pyStrLe (a b : String) : Bool :=
  charListLe a.toList b.toList

/-- Python `sorted` on strings: lexicographic by code point; insertion sort
is stable, as Python's sort is. -/
def pySorted (l : List String) : List String :=
  List.insertionSort (fun a b => pyStrLe a b = true) l

/-- Hexadecimal digit character, lowercase, as in Python's json escapes. -/
def hexDigit (n : Nat) : Char :=
  if n < 10 then Char.ofNat (48 + n) else Char.ofNat (87 + n)

/-- Four-digit lowercase hexadecimal rendering of a code point. -/
def hex4 (n : Nat) : String :=
  String.mk [hexDigit (n / 4096 % 16), hexDigit (n / 256 % 16),
             hexDigit (n / 16 % 16), hexDigit (n % 16)]

/-- One character of `json.dumps` string escaping (default `ensure_ascii`):
quote and backslash are escaped, common control characters get their short
escapes, any other non-printable or non-ASCII character becomes a `\u`
escape. The keys this service hashes are ASCII URLs, for which this is
exact. -/
def jsonEscapeChar (c : Char) : String :=
  if c = '"' then "\\\""
  else if c = '\\' then "\\\\"
  else if c = '\n' then "\\n"
  else if c = '\t' then "\\t"
  else if c = '\r' then "\\r"
  else if c.toNat < 32 ∨ c.toNat > 126 then "\\u" ++ hex4 c.toNat
  else String.singleton c

/-- `json.dumps` of a list of strings with the default separator `", "`. -/
def jsonDumps (l : List String) : String :=
  "[" ++ String.intercalate ", "
      (l.map (fun s => "\"" ++ String.join (s.toList.map jsonEscapeChar) ++ "\"")) ++ "]"

/-- Abstraction of `hashlib.md5(x).hexdigest()` (line 308): a fixed
deterministic digest of the serialized input. Key-equality reasoning needs
only that equal inputs give equal digests and that the distinct serialized
inputs arising here give distinct digests (collision resistance), so the
digest is modelled as the identity embedding of its input string. -/
def md5_hexdigest (s : String) : String := s

/-- Line 307: `urls = sorted([auction.product_link for auction in
auction_list if auction.product_link])` — the non-empty links, sorted,
duplicates kept. -/
def product_data_urls (auction_list : List String) : List String :=
  pySorted (auction_list.filter (fun u => u ≠ ""))

/-- Line 308: the batch cache key,
`hashlib.md5(json.dumps(urls).encode()).hexdigest()`. -/
def product_data_cache_key (auction_list : List String) : String :=
  md5_hexdigest (jsonDumps (product_data_urls auction_list))

/-- Outcome of one `session.get` plus extraction for a product page: a
successful 200 response with the fields the extraction helpers produce,
a non-200 status, or a raised exception (timeout, connection error). The
network and the HTML extraction are the external collaborators. -/
inductive FetchOutcome where
  | ok (images : List String) (watchers condition : String)
      (item_features : List (String × String))
  | badStatus (status : Nat)
  | exn (message : String)

/-- Transport failure of any kind: a non-success status, or a raised
exception (timeout, connection error). Exactly the outcomes of
`fetch_product_data` that produce an error record instead of an extracted
one. -/
def FetchOutcome.isFailure : FetchOutcome → Bool
  | .ok _ _ _ _ => false
  | .badStatus _ => true
  | .exn _ => true

/-- The external Transport plus Extraction Layer for product pages: one
outcome per URL. -/
abbrev Transport := String → FetchOutcome

/-- Lines 282 to 298, `fetch_product_data`: a total function. On status not
equal to 200 it returns `{"product_link": url, "error": "Status code N"}`;
on a raised exception it returns `{"product_link": url, "error": str(e)}`;
on success it returns the extracted record tagged with its URL. No branch
propagates a failure. -/
def fetch_product_data (transport : Transport) (url : String) : PyVal :=
  match transport url with
  | .ok images watchers condition item_features =>
      .dict [("images", .list (images.map PyVal.str)),
             ("watchers", .str watchers),
             ("condition", .str condition),
             ("item_features", .dict (item_features.map (fun kv => (kv.1, PyVal.str kv.2)))),
             ("product_link", .str url)]
  | .badStatus status =>
      .dict [("product_link", .str url),
             ("error", .str ("Status code " ++ toString status))]
  | .exn message =>
      .dict [("product_link", .str url), ("error", .str message)]

/-- Result of the `/single-product` endpoint: the JSON response, the
single-item cache after the call, and whether a transport fetch was
performed. -/
structure SingleResult where
  response : PyVal
  product_cache : Cache
  fetched : Bool

/-- The fetch branch of `/single-product` (lines 371 to 375): fetch, store
the result under the link, return it. -/
def single_product_fetch (transport : Transport) (product_link : String)
    (pc : Cache) (now : Nat) : SingleResult :=
  ⟨fetch_product_data transport product_link,
   store_in_cache pc product_link (fetch_product_data transport product_link) now,
   true⟩

/-- Lines 359 to 375, the `/single-product` endpoint: serve the cached
record when `get_from_cache` returns a truthy value, fetch otherwise. -/
def single_product (transport : Transport) (product_link : String)
    (pc : Cache) (now : Nat) : SingleResult :=
  match get_from_cache pc product_link now with
  | some v =>
      if v.isTruthy then ⟨v, pc, false⟩
      else single_product_fetch transport product_link pc now
  | none => single_product_fetch transport product_link pc now

/-- Result of the `/product-data` endpoint: the JSON response, the two
caches after the call, and whether the batch was served from the batch
cache. -/
structure BatchResult where
  response : PyVal
  product_cache : Cache
  product_data_cache : Cache
  served_from_cache : Bool

/-- One iteration of the partition loop (lines 322 to 334): an empty link
is skipped outright; a truthy single-item cache hit is appended to
`product_data`; anything else is appended to `to_fetch`. The accumulator is
the pair `(product_data, to_fetch)`. -/
def product_data_scan_step (pc : Cache) (now : Nat)
    (acc : List PyVal × List String) (url : String) : List PyVal × List String :=
  if url = "" then acc
  else
    match get_from_cache pc url now with
    | some v =>
        if v.isTruthy then (acc.1 ++ [v], acc.2) else (acc.1, acc.2 ++ [url])
    | none => (acc.1, acc.2 ++ [url])

/-- Comparison used by line 350, `sorted(product_data, key=lambda x:
urls.index(x["product_link"]))`: records are ordered by the position of
their link in the sorted `urls` list, not by original input position. -/
def urls_index_le (urls : List String) (a b : PyVal) : Prop :=
  urls.indexOf (a.getStr "product_link") ≤ urls.indexOf (b.getStr "product_link")

instance (urls : List String) (a b : PyVal) : Decidable (urls_index_le urls a b) :=
  inferInstanceAs (Decidable (_ ≤ _))

/-- The cache-miss path of `/product-data` (lines 316 to 354): partition
the links against the single-item cache, fetch the misses concurrently
(`asyncio.gather` keeps `to_fetch` order), store each fresh record in the
single-item cache, sort the combined records by `urls.index`, store the
whole batch under the batch key, return it. -/
def product_data_fetch_path (transport : Transport) (auction_list : List String)
    (pc pdc : Cache) (now : Nat) : BatchResult :=
  let urls := product_data_urls auction_list
  let scan := auction_list.foldl (product_data_scan_step pc now) ([], [])
  let new_data := scan.2.map (fetch_product_data transport)
  let pc' := (scan.2.zip new_data).foldl
      (fun c kv => store_in_cache c kv.1 kv.2 now) pc
  let sorted_data := List.insertionSort (urls_index_le urls) (scan.1 ++ new_data)
  ⟨.list sorted_data,
   pc',
   store_in_cache pdc (product_data_cache_key auction_list) (.list sorted_data) now,
   false⟩

/-- Lines 300 to 354, the `/product-data` endpoint: derive the batch key
from the sorted non-empty links, serve a truthy batch-cache hit verbatim,
otherwise run the fetch path. Its input is the list of `product_link`
fields of the posted auction items. -/
def get_product_data_endpoint (transport : Transport) (auction_list : List String)
    (pc pdc : Cache) (now : Nat) : BatchResult :=
  match get_from_cache pdc (product_data_cache_key auction_list) now with
  | some v =>
      if v.isTruthy then ⟨v, pc, pdc, true⟩
      else product_data_fetch_path transport auction_list pc pdc now
  | none => product_data_fetch_path transport auction_list pc pdc now

/-- The `product_link` field of each element of a response list, read in
response order. -/
def response_links : PyVal → List String
  | .list l => l.map (fun v => v.getStr "product_link")
  | _ => []

/-- Result of one `fetch_page` call (lines 203 to 207): the page text, or
the status of the HTTPException the function raises on a non-200 response.
`asyncio.gather` at line 232 propagates a raised exception, modelled by the
Except monad. -/
abbrev PageTransport := Nat → Except Nat String

/-- Result of `/auctions` when no exception escapes: the JSON response, the
auction cache after the call, and whether it was served from the cache. -/
structure AuctionsResult where
  response : PyVal
  auction_cache : Cache
  served_from_cache : Bool

/-- The fetch branch of `/auctions` (lines 227 to 272): fetch pages
`1..pages`; a failing page aborts the whole call with its HTTPException;
otherwise the auction dicts extracted from each page (the per-item
BeautifulSoup loop at lines 234 to 268 is the external Extraction Layer,
an oracle here) are concatenated in page order, stored under the cache key
and returned. -/
def get_auctions_fetch (fetch : PageTransport) (parse_items : String → List PyVal)
    (cache_key : String) (pages : Nat) (cache : Cache) (now : Nat) :
    Except Nat AuctionsResult :=
  match (List.range' 1 pages).mapM fetch with
  | .error status => .error status
  | .ok contents =>
      let auctions := contents.foldl (fun acc content => acc ++ parse_items content) []
      .ok ⟨.list auctions, store_in_cache cache cache_key (.list auctions) now, false⟩

/-- Lines 212 to 272, the `/auctions` endpoint: cache key
`f"{search_term}_{pages}"`; a truthy cached value is served verbatim,
otherwise the fetch branch runs. An `.error status` result is an
HTTPException escaping the endpoint. -/
def get_auctions (fetch : PageTransport) (parse_items : String → List PyVal)
    (search_term : String) (pages : Nat) (cache : Cache) (now : Nat) :
    Except Nat AuctionsResult :=
  match get_from_cache cache (search_term ++ "_" ++ toString pages) now with
  | some v =>
      if v.isTruthy then .ok ⟨v, cache, true⟩
      else get_auctions_fetch fetch parse_items
          (search_term ++ "_" ++ toString pages) pages cache now
  | none => get_auctions_fetch fetch parse_items
      (search_term ++ "_" ++ toString pages) pages cache now

lemma cacheFind_store (cache : Cache) (key : String) (data : PyVal) (now : Nat) :
    cacheFind (store_in_cache cache key data now) key = some ⟨data, now⟩ := by
  simp [cacheFind, store_in_cache]

lemma charListLe_total : ∀ as bs : List Char,
    charListLe as bs = true ∨ charListLe bs as = true := by
  intro as
  induction as with
  | nil => intro bs; left; rfl
  | cons a as ih =>
    intro bs
    cases bs with
    | nil => right; rfl
    | cons b bs =>
      rcases lt_trichotomy a b with h | h | h
      · left; simp [charListLe, h]
      · subst h
        rcases ih bs with h2 | h2
        · left; simp [charListLe, h2]
        · right; simp [charListLe, h2]
      · right; simp [charListLe, h]

lemma charListLe_trans : ∀ as bs cs : List Char,
    charListLe as bs = true → charListLe bs cs = true → charListLe as cs = true := by
  intro as
  induction as with
  | nil => intro bs cs _ _; rfl
  | cons a as ih =>
    intro bs cs hab hbc
    cases bs with
    | nil => simp [charListLe] at hab
    | cons b bs =>
      cases cs with
      | nil => simp [charListLe] at hbc
      | cons c cs =>
        rcases lt_trichotomy a b with h1 | h1 | h1
        · rcases lt_trichotomy b c with h2 | h2 | h2
          · simp [charListLe, lt_trans h1 h2]
          · subst h2; simp [charListLe, h1]
          · simp [charListLe, not_lt_of_gt h2, ne_of_gt h2] at hbc
        · subst h1
          rcases lt_trichotomy a c with h2 | h2 | h2
          · simp [charListLe, h2]
          · subst h2
            simp only [charListLe, lt_irrefl, if_neg, if_pos rfl, if_false] at hab hbc ⊢
            simp at hab hbc
            exact ih bs cs hab hbc
          · simp [charListLe, not_lt_of_gt h2, ne_of_gt h2] at hbc
        · simp [charListLe, not_lt_of_gt h1, ne_of_gt h1] at hab

lemma charListLe_antisymm : ∀ as bs : List Char,
    charListLe as bs = true → charListLe bs as = true → as = bs := by
  intro as
  induction as with
  | nil =>
    intro bs _ hba
    cases bs with
    | nil => rfl
    | cons b bs => simp [charListLe] at hba
  | cons a as ih =>
    intro bs hab hba
    cases bs with
    | nil => simp [charListLe] at hab
    | cons b bs =>
      rcases lt_trichotomy a b with h | h | h
      · simp [charListLe, not_lt_of_gt h, ne_of_gt h] at hba
      · subst h
        simp only [charListLe, lt_irrefl, if_neg, if_pos rfl, if_false] at hab hba
        simp at hab hba
        rw [ih bs hab hba]
      · simp [charListLe, not_lt_of_gt h, ne_of_gt h] at hab

instance : IsTotal String (fun a b => pyStrLe a b = true) :=
  ⟨fun a b => charListLe_total a.toList b.toList⟩

instance : IsTrans String (fun a b => pyStrLe a b = true) :=
  ⟨fun a b c hab hbc => charListLe_trans a.toList b.toList c.toList hab hbc⟩

instance : IsAntisymm String (fun a b => pyStrLe a b = true) :=
  ⟨fun a b hab hba => String.toList_inj.mp (charListLe_antisymm a.toList b.toList hab hba)⟩

lemma get_product_data_endpoint_miss (transport : Transport) (auction_list : List String)
    (pc pdc : Cache) (now : Nat)
    (h : py_truthy (get_from_cache pdc (product_data_cache_key auction_list) now) = false) :
    get_product_data_endpoint transport auction_list pc pdc now =
      product_data_fetch_path transport auction_list pc pdc now := by
  unfold get_product_data_endpoint
  cases ho : get_from_cache pdc (product_data_cache_key auction_list) now with
  | none => rfl
  | some v =>
    rw [ho] at h
    simp only [py_truthy] at h
    simp [h]

lemma get_auctions_miss (fetch : PageTransport) (parse_items : String → List PyVal)
    (search_term : String) (pages : Nat) (cache : Cache) (now : Nat)
    (h : py_truthy (get_from_cache cache (search_term ++ "_" ++ toString pages) now) = false) :
    get_auctions fetch parse_items search_term pages cache now =
      get_auctions_fetch fetch parse_items
        (search_term ++ "_" ++ toString pages) pages cache now := by
  unfold get_auctions
  cases ho : get_from_cache cache (search_term ++ "_" ++ toString pages) now with
  | none => rfl
  | some v =>
    rw [ho] at h
    simp only [py_truthy] at h
    simp [h]

lemma scan_length (pc : Cache) (now : Nat) :
    ∀ (l : List String) (acc : List PyVal × List String),
      (l.foldl (product_data_scan_step pc now) acc).1.length +
          (l.foldl (product_data_scan_step pc now) acc).2.length =
        acc.1.length + acc.2.length + (l.filter (fun u => u ≠ "")).length := by
  intro l
  induction l with
  | nil => intro acc; simp
  | cons x xs ih =>
    intro acc
    rw [List.foldl_cons, ih]
    by_cases hx : x = ""
    · simp [product_data_scan_step, hx, List.filter_cons]
    · have hstep :
          (product_data_scan_step pc now acc x).1.length +
              (product_data_scan_step pc now acc x).2.length =
            acc.1.length + acc.2.length + 1 := by
        simp only [product_data_scan_step, if_neg hx]
        cases get_from_cache pc x now with
        | none => simp; omega
        | some v => by_cases ht : v.isTruthy <;> simp [ht] <;> omega
      rw [List.filter_cons]
      simp only [hx, decide_not]
      simp [hx]
      omega

lemma get_auctions_fetch_not_served (fetch : PageTransport)
    (parse_items : String → List PyVal) (cache_key : String) (pages : Nat)
    (cache : Cache) (now : Nat) (r : AuctionsResult)
    (hr : get_auctions_fetch fetch parse_items cache_key pages cache now = Except.ok r) :
    r.served_from_cache = false := by
  unfold get_auctions_fetch at hr
  cases hm : (List.range' 1 pages).mapM fetch with
  | error s => rw [hm] at hr; simp at hr
  | ok contents =>
    rw [hm] at hr
    simp only [Except.ok.injEq] at hr
    rw [← hr]

/-- C6: an entry stored at time `t0` is returned by `get_from_cache` as a
hit exactly when `t - t0 ≤ CACHE_EXPIRY_TIME`, and as a miss (absence) when
`t - t0 > CACHE_EXPIRY_TIME`; an invalid entry is never returned. -/
theorem ttl_hit_iff_within_expiry (cache : Cache) (key : String) (data : PyVal) (t0 t : Nat) :
    get_from_cache (store_in_cache cache key data t0) key t =
      if t - t0 ≤ CACHE_EXPIRY_TIME then some data else none := by
  by_cases h : t - t0 ≤ CACHE_EXPIRY_TIME <;>
    simp [get_from_cache, cacheFind_store, entry_valid, h]

/-- C4 counterexample: on an entry stored at time 0 and read at time 601
(expired, TTL 600), `get_from_cache` reports a miss, yet the entry is still
present in the store. The function is a pure read in the code (lines 400 to
404): it never evicts, contradicting the claim that after a miss on an
expired key the entry is no longer present. -/
theorem expired_get_does_not_evict :
    get_from_cache [("k", (⟨PyVal.str "v", 0⟩ : CacheEntry))] "k" 601 = none ∧
    cacheFind [("k", (⟨PyVal.str "v", 0⟩ : CacheEntry))] "k" =
      some ⟨PyVal.str "v", 0⟩ := by
  exact ⟨by rfl, by rfl⟩

/-- C4 amended: when `get_from_cache` finds the entry for a key expired it
returns absence, but it does not evict: the store is not modified by a read
(the embedded `get_from_cache` has no store output because the Python
function performs no mutation); expired entries are removed only by the
periodic sweep. -/
theorem expired_get_returns_none (cache : Cache) (key : String) (now : Nat) (e : CacheEntry)
    (hfind : cacheFind cache key = some e) (hexp : entry_expired e now) :
    get_from_cache cache key now = none := by
  have hnv : ¬ entry_valid e now := by
    unfold entry_valid
    unfold entry_expired at hexp
    omega
  simp [get_from_cache, hfind, hnv]

theorem expired_get_returns_none_witness :
    entry_expired ⟨PyVal.str "v", 0⟩ 601 ∧
    get_from_cache [("k", (⟨PyVal.str "v", 0⟩ : CacheEntry))] "k" 601 = none :=
  ⟨by decide, expired_get_returns_none _ _ _ ⟨PyVal.str "v", 0⟩ (by rfl) (by decide)⟩

/-- C7: one sweep pass removes, from every cache namespace, exactly the
entries whose age exceeds the TTL and keeps every other entry unchanged,
and the expiry predicate it uses is the exact complement of the validity
predicate used by lazy reads. -/
theorem sweep_removes_exactly_expired (product_cache auction_cache product_data_cache : Cache)
    (now : Nat) (k : String) (e : CacheEntry) :
    (((k, e) ∈ (clean_expired_cache_step product_cache auction_cache product_data_cache now).1 ↔
        (k, e) ∈ product_cache ∧ ¬ entry_expired e now) ∧
      ((k, e) ∈ (clean_expired_cache_step product_cache auction_cache product_data_cache now).2.1 ↔
        (k, e) ∈ auction_cache ∧ ¬ entry_expired e now) ∧
      ((k, e) ∈ (clean_expired_cache_step product_cache auction_cache product_data_cache now).2.2 ↔
        (k, e) ∈ product_data_cache ∧ ¬ entry_expired e now)) ∧
    (entry_expired e now ↔ ¬ entry_valid e now) := by
  refine ⟨⟨?_, ?_, ?_⟩, ?_⟩
  · simp [clean_expired_cache_step, clean_cache_pass, List.mem_filter]
  · simp [clean_expired_cache_step, clean_cache_pass, List.mem_filter]
  · simp [clean_expired_cache_step, clean_cache_pass, List.mem_filter]
  · unfold entry_expired entry_valid
    omega

/-- C2 counterexample: the code sorts but does not deduplicate the
identifier list (line 307 keeps duplicates), so a request naming `"a"`
twice derives a different batch key than one naming it once, refuting
`deriveKey(["a","a","b"]) = deriveKey(["a","b"])`. -/
theorem batch_key_not_dedup_invariant :
    product_data_cache_key ["a", "a", "b"] ≠ product_data_cache_key ["a", "b"] := by
  decide

/-- C2 amended: the batch cache key is invariant under reordering of the
identifier list (and more generally depends only on the multiset of
non-empty identifiers), but not under duplication: duplicates are kept by
the serialization and change the key. -/
theorem batch_key_perm_invariant (l₁ l₂ : List String) (h : l₁.Perm l₂) :
    product_data_cache_key l₁ = product_data_cache_key l₂ := by
  unfold product_data_cache_key product_data_urls pySorted
  have hperm :
      List.insertionSort (fun a b => pyStrLe a b = true) (l₁.filter (fun u => u ≠ "")) =
        List.insertionSort (fun a b => pyStrLe a b = true) (l₂.filter (fun u => u ≠ "")) := by
    refine List.eq_of_perm_of_sorted
      (((List.perm_insertionSort _ _).trans ((h.filter _).trans
        (List.perm_insertionSort _ _).symm)))
      (List.sorted_insertionSort _ _) (List.sorted_insertionSort _ _)
  rw [hperm]

theorem batch_key_perm_invariant_witness :
    product_data_cache_key ["a", "b"] = product_data_cache_key ["b", "a"] :=
  batch_key_perm_invariant _ _ (List.Perm.swap "b" "a" [])

/-- C8: a valid cached record for identifier `X` is served by the
single-product endpoint without invoking Transport, and the cache is left
unchanged. The truthiness hypothesis holds for every record the program
can have stored in the single-item cache, because both writers store a
`fetch_product_data` result and every such record is a non-empty dict (the
second conjunct). -/
theorem cache_hit_avoids_fetch (transport : Transport) (X : String) (pc : Cache)
    (now : Nat) (v : PyVal)
    (hv : get_from_cache pc X now = some v) (ht : v.isTruthy = true) :
    single_product transport X pc now = ⟨v, pc, false⟩ ∧
    (∀ tr u, (fetch_product_data tr u).isTruthy = true) := by
  constructor
  · simp [single_product, hv, ht]
  · intro tr u
    cases h : tr u <;> simp [fetch_product_data, h, PyVal.isTruthy]

theorem cache_hit_avoids_fetch_witness :
    single_product (fun _ => FetchOutcome.exn "timeout") "x"
        [("x", (⟨PyVal.dict [("product_link", PyVal.str "x")], 0⟩ : CacheEntry))] 0 =
      ⟨PyVal.dict [("product_link", PyVal.str "x")],
       [("x", (⟨PyVal.dict [("product_link", PyVal.str "x")], 0⟩ : CacheEntry))], false⟩ :=
  (cache_hit_avoids_fetch _ _ _ _ _ (by rfl) (by rfl)).1

/-- C1 (code bug): on the batch request `[{"product_link": "b"},
{"product_link": "a"}]` with cold caches, the endpoint returns the records
in lexicographic link order `["a", "b"]`, not the input order `["b", "a"]`:
line 350 sorts by `urls.index(...)` where `urls` is the *sorted* link list,
although the comment above it says "Sort the results to match original
order" and the `url_to_index` map of original positions built at line 334
is never used. -/
theorem product_data_output_ignores_input_order :
    response_links (get_product_data_endpoint (fun _ => FetchOutcome.ok [] "" "" [])
        ["b", "a"] [] [] 0).response = ["a", "b"] ∧
    (["a", "b"] : List String) ≠ ["b", "a"] :=
  ⟨by rfl, by decide⟩

/-- C9: every input element whose link is the empty string is skipped
before any cache lookup or fetch, so under a batch-cache miss the response
list has exactly one element per non-empty input link — its length is the
number of non-empty links, not the full input length. -/
theorem empty_links_contribute_nothing (transport : Transport)
    (auction_list : List String) (pc pdc : Cache) (now : Nat)
    (hmiss : py_truthy (get_from_cache pdc (product_data_cache_key auction_list) now) = false) :
    ∃ l, (get_product_data_endpoint transport auction_list pc pdc now).response = .list l ∧
      l.length = (auction_list.filter (fun u => u ≠ "")).length := by
  rw [get_product_data_endpoint_miss _ _ _ _ _ hmiss]
  refine ⟨_, rfl, ?_⟩
  rw [List.length_insertionSort, List.length_append, List.length_map]
  have h := scan_length pc now auction_list ([], [])
  simpa using h

theorem empty_links_contribute_nothing_witness :
    py_truthy (get_from_cache [] (product_data_cache_key ["", "a"]) 0) = false ∧
    ∃ l, (get_product_data_endpoint (fun _ => FetchOutcome.exn "down")
        ["", "a"] [] [] 0).response = .list l ∧
      l.length = ((["", "a"] : List String).filter (fun u => u ≠ "")).length :=
  ⟨by rfl, empty_links_contribute_nothing _ _ _ _ _ (by rfl)⟩

/-- C5: on a cold-cache batch `[A, B]` where Transport fails for `A` with
any failure kind the claim names — non-success status, timeout, or
connection error — and succeeds for `B`, the response has exactly two
elements: one for `A` carrying the `"error"` marker field and one for `B`
without it. `get_product_data_endpoint` is a total function — no exception
escapes — and `B`'s fetch is unaffected by `A`'s failure. -/
theorem partial_failure_isolated (transport : Transport) (a b : String)
    (now : Nat) (images : List String) (watchers condition : String)
    (item_features : List (String × String))
    (ha : a ≠ "") (hb : b ≠ "")
    (hfa : (transport a).isFailure = true)
    (hfb : transport b = .ok images watchers condition item_features) :
    ∃ l, (get_product_data_endpoint transport [a, b] [] [] now).response = .list l ∧
      l.length = 2 ∧
      (∃ ea ∈ l, ea.getStr "product_link" = a ∧ ea.hasField "error" = true) ∧
      (∃ eb ∈ l, eb.getStr "product_link" = b ∧ eb.hasField "error" = false) := by
  have hmiss : py_truthy (get_from_cache [] (product_data_cache_key [a, b]) now) = false := rfl
  rw [get_product_data_endpoint_miss _ _ _ _ _ hmiss]
  have hscan : List.foldl (product_data_scan_step ([] : Cache) now) ([], []) [a, b] =
      (([] : List PyVal), [a, b]) := by
    simp [product_data_scan_step, ha, hb, get_from_cache, cacheFind]
  have hra : (fetch_product_data transport a).getStr "product_link" = a ∧
      (fetch_product_data transport a).hasField "error" = true := by
    cases h : transport a with
    | ok images2 watchers2 condition2 item_features2 =>
      rw [h] at hfa
      simp [FetchOutcome.isFailure] at hfa
    | badStatus status =>
      have hda : fetch_product_data transport a =
          PyVal.dict [("product_link", PyVal.str a),
                      ("error", PyVal.str ("Status code " ++ toString status))] := by
        simp [fetch_product_data, h]
      exact ⟨by rw [hda]; rfl, by rw [hda]; rfl⟩
    | exn message =>
      have hda : fetch_product_data transport a =
          PyVal.dict [("product_link", PyVal.str a), ("error", PyVal.str message)] := by
        simp [fetch_product_data, h]
      exact ⟨by rw [hda]; rfl, by rw [hda]; rfl⟩
  have hrb : fetch_product_data transport b =
      PyVal.dict [("images", .list (images.map PyVal.str)),
                  ("watchers", .str watchers),
                  ("condition", .str condition),
                  ("item_features", .dict (item_features.map (fun kv => (kv.1, PyVal.str kv.2)))),
                  ("product_link", .str b)] := by
    simp [fetch_product_data, hfb]
  have hresp : (product_data_fetch_path transport [a, b] [] [] now).response =
      PyVal.list (List.insertionSort (urls_index_le (product_data_urls [a, b]))
        [fetch_product_data transport a, fetch_product_data transport b]) := by
    simp [product_data_fetch_path, hscan]
  rw [hresp]
  have hperm := List.perm_insertionSort (urls_index_le (product_data_urls [a, b]))
    [fetch_product_data transport a, fetch_product_data transport b]
  refine ⟨_, rfl, ?_, ?_, ?_⟩
  · simpa using hperm.length_eq
  · exact ⟨fetch_product_data transport a, hperm.mem_iff.mpr (by simp), hra.1, hra.2⟩
  · refine ⟨fetch_product_data transport b, hperm.mem_iff.mpr (by simp), ?_, ?_⟩
    · rw [hrb]; rfl
    · rw [hrb]; rfl

theorem partial_failure_isolated_witness :
    ∃ l, (get_product_data_endpoint
        (fun u => if u = "a" then .exn "Connection timeout" else .ok [] "" "" [])
        ["a", "b"] [] [] 0).response = .list l ∧
      l.length = 2 ∧
      (∃ ea ∈ l, ea.getStr "product_link" = "a" ∧ ea.hasField "error" = true) ∧
      (∃ eb ∈ l, eb.getStr "product_link" = "b" ∧ eb.hasField "error" = false) :=
  partial_failure_isolated _ "a" "b" 0 [] "" "" []
    (by decide) (by decide) (by rfl) (by rfl)

/-- C3 counterexample: with every page fetch returning status 500, the
`/auctions` endpoint raises: `fetch_page` raises an HTTPException on any
non-200 status (line 206) and `asyncio.gather` propagates it out of
`get_auctions` uncaught (line 232), so this public operation fails whole
because of one bad page, refuting "no public operation ever raises". -/
theorem auctions_raises_on_bad_page :
    get_auctions (fun _ => Except.error 500) (fun _ => []) "iphone" 3 [] 0 =
      Except.error 500 := by rfl

/-- C3 amended: the batch and single-item endpoints never raise — every
per-item transport outcome, including failures, becomes a record dict
tagged with its URL (first conjunct) — but `/auctions` does raise: on a
cache miss with a failing first page fetch, the HTTPException escapes the
endpoint (second conjunct). -/
theorem failures_in_band_except_auctions :
    (∀ (tr : Transport) (u : String), ∃ d, fetch_product_data tr u = PyVal.dict d ∧
      (fetch_product_data tr u).hasField "product_link" = true) ∧
    (∀ (fetch : PageTransport) (parse_items : String → List PyVal)
        (search_term : String) (pages : Nat) (cache : Cache) (now status : Nat),
      1 ≤ pages →
      py_truthy (get_from_cache cache (search_term ++ "_" ++ toString pages) now) = false →
      fetch 1 = Except.error status →
      get_auctions fetch parse_items search_term pages cache now = Except.error status) := by
  constructor
  · intro tr u
    cases h : tr u with
    | ok images watchers condition item_features =>
      have hr : fetch_product_data tr u =
          PyVal.dict [("images", .list (images.map PyVal.str)),
                      ("watchers", .str watchers),
                      ("condition", .str condition),
                      ("item_features", .dict (item_features.map (fun kv => (kv.1, PyVal.str kv.2)))),
                      ("product_link", .str u)] := by
        simp [fetch_product_data, h]
      exact ⟨_, hr, by rw [hr]; rfl⟩
    | badStatus status =>
      have hr : fetch_product_data tr u =
          PyVal.dict [("product_link", PyVal.str u),
                      ("error", PyVal.str ("Status code " ++ toString status))] := by
        simp [fetch_product_data, h]
      exact ⟨_, hr, by rw [hr]; rfl⟩
    | exn message =>
      have hr : fetch_product_data tr u =
          PyVal.dict [("product_link", PyVal.str u), ("error", PyVal.str message)] := by
        simp [fetch_product_data, h]
      exact ⟨_, hr, by rw [hr]; rfl⟩
  · intro fetch parse_items search_term pages cache now status hpg hmiss hf1
    obtain ⟨n, rfl⟩ : ∃ n, pages = n + 1 := ⟨pages - 1, by omega⟩
    rw [get_auctions_miss _ _ _ _ _ _ hmiss]
    unfold get_auctions_fetch
    have hrange : List.range' 1 (n + 1) = 1 :: List.range' 2 n := by
      simp [List.range']
    rw [hrange, List.mapM_cons, hf1]
    rfl

theorem failures_in_band_except_auctions_witness :
    get_auctions (fun _ => Except.error 404) (fun _ => []) "shoes" 2 [] 5 =
      Except.error 404 :=
  failures_in_band_except_auctions.2 _ _ _ _ _ _ _ (by decide) (by rfl) (by rfl)

/-- C10: a cached value that is empty (falsy) is never served as a hit,
even while its entry is still valid under the TTL: both the batch endpoint
and the auctions endpoint test the retrieved value for truthiness, so with
a valid-but-falsy entry under the looked-up key they take the fetch path
(the batch conjunct) and any non-raising auctions call is likewise not
served from the cache (the auctions conjunct). -/
theorem empty_cached_value_not_served
    (transport : Transport) (auction_list : List String) (pc : Cache)
    (fetch : PageTransport) (parse_items : String → List PyVal)
    (search_term : String) (pages : Nat)
    (d dA : PyVal) (ts tsA now : Nat)
    (hfalsy : d.isTruthy = false) (hfalsyA : dA.isTruthy = false)
    (hvalid : entry_valid ⟨d, ts⟩ now) (hvalidA : entry_valid ⟨dA, tsA⟩ now) :
    (get_product_data_endpoint transport auction_list pc
        [(product_data_cache_key auction_list, ⟨d, ts⟩)] now).served_from_cache = false ∧
    (∀ r, get_auctions fetch parse_items search_term pages
        [(search_term ++ "_" ++ toString pages, ⟨dA, tsA⟩)] now = Except.ok r →
      r.served_from_cache = false) := by
  have hget : ∀ (k : String) (dd : PyVal) (tt : Nat), entry_valid ⟨dd, tt⟩ now →
      get_from_cache [(k, (⟨dd, tt⟩ : CacheEntry))] k now = some dd := by
    intro k dd tt hv
    simp [get_from_cache, cacheFind, hv]
  constructor
  · rw [get_product_data_endpoint_miss]
    · rfl
    · rw [hget _ _ _ hvalid]
      simpa [py_truthy] using hfalsy
  · intro r hr
    rw [get_auctions_miss] at hr
    · exact get_auctions_fetch_not_served _ _ _ _ _ _ _ hr
    · rw [hget _ _ _ hvalidA]
      simpa [py_truthy] using hfalsyA

theorem empty_cached_value_not_served_witness :
    (get_product_data_endpoint (fun _ => FetchOutcome.exn "down") ["a"] []
        [(product_data_cache_key ["a"], (⟨PyVal.list [], 0⟩ : CacheEntry))]
        0).served_from_cache = false :=
  (empty_cached_value_not_served (fun _ => FetchOutcome.exn "down") ["a"] []
    (fun _ => Except.error 500) (fun _ => []) "s" 1 (PyVal.list []) (PyVal.list []) 0 0 0
    (by rfl) (by rfl) (by decide) (by decide)).1

end App

